import Mathlib

/-!
Verification of the Seoul air-quality dashboard core (`app.py`): the
loader/normalizer and the aggregation pipeline.

Modelling conventions:
* a pandas missing value (NaN / NaT) is `none` in an `Option`;
* float concentration values are modelled as exact rationals `ℚ`;
* a parsed date-time (the `일시` column) is a `Timestamp` record to the
  hour resolution used by the data;
* reading one CSV source either yields its rows or fails, modelled as
  `Option (List RawRow)`.
-/

/-- A parsed date-time value (the `일시` column after parsing). -/
structure Timestamp where
  year : ℕ
  month : ℕ
  day : ℕ
  hour : ℕ
deriving DecidableEq, Repr

/-- A calendar date, as produced by `.dt.date`. -/
structure Date where
  year : ℕ
  month : ℕ
  day : ℕ
deriving DecidableEq, Repr

/-- The date component of a timestamp (`.dt.date`). -/
def Timestamp.date (t : Timestamp) : Date :=
  ⟨t.year, t.month, t.day⟩

/-- Chronological order on timestamps: lexicographic on the components. -/
def Timestamp.leb (a b : Timestamp) : Bool :=
  (a.year < b.year) || (a.year == b.year &&
    ((a.month < b.month) || (a.month == b.month &&
      ((a.day < b.day) || (a.day == b.day && a.hour ≤ b.hour)))))

/-- Chronological order on dates: lexicographic on the components. -/
def Date.leb (a b : Date) : Bool :=
  (a.year < b.year) || (a.year == b.year &&
    ((a.month < b.month) || (a.month == b.month && a.day ≤ b.day)))

/-- A raw CSV row after date parsing with coercion: `date` is `none` when
the raw date text was unparseable (NaT). -/
structure RawRow where
  date : Option Timestamp
  district : String
  pm10 : Option ℚ
  pm25 : Option ℚ
deriving DecidableEq, Repr

/-- A retained record of the unified table: a valid timestamp, the district
(`구분`), the two pollutant columns, and the derived calendar columns
(`연도`, `월`, `일`, `시간`). -/
structure Row where
  timestamp : Timestamp
  district : String
  pm10 : Option ℚ
  pm25 : Option ℚ
  year : ℕ
  month : ℕ
  day : ℕ
  hour : ℕ
deriving DecidableEq, Repr

/-- Normalization performed by `load_data` after concatenation: parse dates
(already reflected in `RawRow.date`), drop rows whose date failed to parse
(`dropna(subset=[일시])`), and derive the calendar columns. -/
def normalizeRows (raws : List RawRow) : List Row :=
  raws.filterMap (fun raw =>
    raw.date.map (fun t =>
      { timestamp := t, district := raw.district,
        pm10 := raw.pm10, pm25 := raw.pm25,
        year := t.year, month := t.month, day := t.day, hour := t.hour }))

/-- The `for period, file in files.items()` loop of `load_data`: try to read
each source; on success append its rows to `dfs`, on failure report the file
and continue.  Returns the successfully read tables (in configuration order)
and the reported failures (in configuration order). -/
def readAll : List (String × Option (List RawRow)) → List (List RawRow) × List String
  | [] => ([], [])
  | (file, res) :: rest =>
    let acc := readAll rest
    match res with
    | some df => (df :: acc.1, acc.2)
    | none => (acc.1, file :: acc.2)

/-- `load_data` from `app.py`: read all sources, skipping and reporting the
failed ones; if any source was read, concatenate and normalize; otherwise
return the empty table.  The second component is the list of reported read
failures. -/
def load_data (files : List (String × Option (List RawRow))) : List Row × List String :=
  let acc := readAll files
  if acc.1.isEmpty then ([], acc.2)
  else (normalizeRows acc.1.flatten, acc.2)

/-- `get_air_quality_grade` from `app.py`: a missing value maps to
`데이터없음`; the `PM10` thresholds are used exactly when the pollutant
string is `PM10`, the PM2.5 thresholds otherwise. -/
def get_air_quality_grade (value : Option ℚ) (pollutant : String) : String :=
  match value with
  | none => "데이터없음"
  | some v =>
    if pollutant = "PM10" then
      if v ≤ 30 then "좋음"
      else if v ≤ 80 then "보통"
      else if v ≤ 150 then "나쁨"
      else "매우나쁨"
    else
      if v ≤ 15 then "좋음"
      else if v ≤ 35 then "보통"
      else if v ≤ 75 then "나쁨"
      else "매우나쁨"

/-- Severity rank of a grade string: the four severity categories in
increasing order, with the no-data grade outside them. -/
def severity : String → ℕ
  | "좋음" => 0
  | "보통" => 1
  | "나쁨" => 2
  | "매우나쁨" => 3
  | _ => 4

/-- The two pollutant columns selectable in the UI (`PM10` / `PM25`). -/
inductive Pollutant
  | pm10
  | pm25
deriving DecidableEq, Repr

/-- Column selection `data[pollutant]`. -/
def Row.col (r : Row) : Pollutant → Option ℚ
  | .pm10 => r.pm10
  | .pm25 => r.pm25

/-- The year/district filter (`filtered_data` in `app.py`): rows whose `연도`
equals the selected year and whose `구분` is in the selected district list. -/
def filtered_data (data : List Row) (selected_year : ℕ)
    (selected_districts : List String) : List Row :=
  data.filter (fun r =>
    r.year == selected_year && selected_districts.contains r.district)

/-- C1: the filter returns exactly the rows whose `year` equals the given
year and whose `district` is in the given set; with an empty district set
the result is empty for any year. -/
theorem filtered_data_spec (data : List Row) (y : ℕ) (ds : List String) :
    (∀ r, r ∈ filtered_data data y ds ↔ r ∈ data ∧ r.year = y ∧ r.district ∈ ds)
    ∧ filtered_data data y [] = [] := by
  constructor
  · intro r
    simp [filtered_data, List.mem_filter, and_assoc]
  · simp [filtered_data]

/-- C1 witness: the round-trip scenario — a single 강남구 row of 2022 is
returned by `filter(table, 2022, [강남구])`. -/
theorem filtered_data_spec_witness :
    (⟨⟨2022, 6, 1, 10⟩, "강남구", some 25, none, 2022, 6, 1, 10⟩ : Row) ∈
      filtered_data [⟨⟨2022, 6, 1, 10⟩, "강남구", some 25, none, 2022, 6, 1, 10⟩]
        2022 ["강남구"] :=
  ((filtered_data_spec [⟨⟨2022, 6, 1, 10⟩, "강남구", some 25, none, 2022, 6, 1, 10⟩]
      2022 ["강남구"]).1 _).mpr ⟨by decide, rfl, by decide⟩

/-- C2: the grade thresholds — for `PM10`: ≤30 좋음, ≤80 보통, ≤150 나쁨,
else 매우나쁨; for `PM2.5`: ≤15, ≤35, ≤75; a missing value maps to
`데이터없음` and a present value never does. -/
theorem get_air_quality_grade_thresholds (v : ℚ) :
    ((v ≤ 30 → get_air_quality_grade (some v) "PM10" = "좋음")
      ∧ (30 < v → v ≤ 80 → get_air_quality_grade (some v) "PM10" = "보통")
      ∧ (80 < v → v ≤ 150 → get_air_quality_grade (some v) "PM10" = "나쁨")
      ∧ (150 < v → get_air_quality_grade (some v) "PM10" = "매우나쁨"))
    ∧ ((v ≤ 15 → get_air_quality_grade (some v) "PM2.5" = "좋음")
      ∧ (15 < v → v ≤ 35 → get_air_quality_grade (some v) "PM2.5" = "보통")
      ∧ (35 < v → v ≤ 75 → get_air_quality_grade (some v) "PM2.5" = "나쁨")
      ∧ (75 < v → get_air_quality_grade (some v) "PM2.5" = "매우나쁨"))
    ∧ (∀ p, get_air_quality_grade none p = "데이터없음")
    ∧ (∀ p, get_air_quality_grade (some v) p ≠ "데이터없음") := by
  have g10 : ∀ w : ℚ, get_air_quality_grade (some w) "PM10" =
      if w ≤ 30 then "좋음" else if w ≤ 80 then "보통"
      else if w ≤ 150 then "나쁨" else "매우나쁨" := by
    intro w
    simp [get_air_quality_grade]
  have g25 : ∀ w : ℚ, get_air_quality_grade (some w) "PM2.5" =
      if w ≤ 15 then "좋음" else if w ≤ 35 then "보통"
      else if w ≤ 75 then "나쁨" else "매우나쁨" := by
    intro w
    simp only [get_air_quality_grade, if_neg (by decide : ¬("PM2.5" = "PM10"))]
  refine ⟨⟨?_, ?_, ?_, ?_⟩, ⟨?_, ?_, ?_, ?_⟩, fun p => rfl, fun p => ?_⟩
  · intro h
    rw [g10, if_pos h]
  · intro h1 h2
    rw [g10, if_neg (by linarith), if_pos h2]
  · intro h1 h2
    rw [g10, if_neg (by linarith), if_neg (by linarith), if_pos h2]
  · intro h1
    rw [g10, if_neg (by linarith), if_neg (by linarith), if_neg (by linarith)]
  · intro h
    rw [g25, if_pos h]
  · intro h1 h2
    rw [g25, if_neg (by linarith), if_pos h2]
  · intro h1 h2
    rw [g25, if_neg (by linarith), if_neg (by linarith), if_pos h2]
  · intro h1
    rw [g25, if_neg (by linarith), if_neg (by linarith), if_neg (by linarith)]
  · simp only [get_air_quality_grade]
    split_ifs <;> decide

/-- C2 witness: `grade(25.0, PM10)` is 좋음, and a missing value is
`데이터없음`. -/
theorem get_air_quality_grade_thresholds_witness :
    get_air_quality_grade (some 25) "PM10" = "좋음"
    ∧ get_air_quality_grade none "PM10" = "데이터없음" :=
  ⟨(get_air_quality_grade_thresholds 25).1.1 (by norm_num),
   (get_air_quality_grade_thresholds 25).2.2.1 "PM10"⟩

/-- C10: any pollutant string other than `PM10` — including `PM25` and
`PM2.5` — is classified with the PM2.5 thresholds, not rejected. -/
theorem get_air_quality_grade_default (p : String) (hp : p ≠ "PM10") (v : ℚ) :
    (v ≤ 15 → get_air_quality_grade (some v) p = "좋음")
    ∧ (15 < v → v ≤ 35 → get_air_quality_grade (some v) p = "보통")
    ∧ (35 < v → v ≤ 75 → get_air_quality_grade (some v) p = "나쁨")
    ∧ (75 < v → get_air_quality_grade (some v) p = "매우나쁨")
    ∧ get_air_quality_grade (some v) p = get_air_quality_grade (some v) "PM25" := by
  have gp : ∀ w : ℚ, get_air_quality_grade (some w) p =
      if w ≤ 15 then "좋음" else if w ≤ 35 then "보통"
      else if w ≤ 75 then "나쁨" else "매우나쁨" := by
    intro w
    simp only [get_air_quality_grade, if_neg hp]
  have g25 : ∀ w : ℚ, get_air_quality_grade (some w) "PM25" =
      if w ≤ 15 then "좋음" else if w ≤ 35 then "보통"
      else if w ≤ 75 then "나쁨" else "매우나쁨" := by
    intro w
    simp only [get_air_quality_grade, if_neg (by decide : ¬("PM25" = "PM10"))]
  refine ⟨?_, ?_, ?_, ?_, ?_⟩
  · intro h
    rw [gp, if_pos h]
  · intro h1 h2
    rw [gp, if_neg (by linarith), if_pos h2]
  · intro h1 h2
    rw [gp, if_neg (by linarith), if_neg (by linarith), if_pos h2]
  · intro h1
    rw [gp, if_neg (by linarith), if_neg (by linarith), if_neg (by linarith)]
  · rw [gp, g25]

/-- C10 witness: the string `PM2.5` (not the code's `PM25`) also hits the
PM2.5 thresholds: `grade(20, PM2.5)` is 보통. -/
theorem get_air_quality_grade_default_witness :
    get_air_quality_grade (some 20) "PM2.5" = "보통" :=
  (get_air_quality_grade_default "PM2.5" (by decide) 20).2.1 (by norm_num) (by norm_num)

/-- C6: for each pollutant string, grading is monotone in severity as the
value increases, and the grade is `데이터없음` exactly for a missing value. -/
theorem get_air_quality_grade_monotone (p : String) (v1 v2 : ℚ) (h : v1 ≤ v2) :
    severity (get_air_quality_grade (some v1) p) ≤
      severity (get_air_quality_grade (some v2) p)
    ∧ ∀ w : Option ℚ, (get_air_quality_grade w p = "데이터없음" ↔ w = none) := by
  constructor
  · by_cases hp : p = "PM10" <;>
      simp only [get_air_quality_grade, if_pos, if_neg, hp, if_true, reduceIte] <;>
      split_ifs <;> first | decide | (exfalso; linarith)
  · intro w
    cases w with
    | none => simp [get_air_quality_grade]
    | some u =>
      simp only [get_air_quality_grade, Option.some_ne_none, iff_false]
      split_ifs <;> decide

/-- C6 witness: at `10 ≤ 100` the PM10 grade severity increases from 좋음
to 매우나쁨. -/
theorem get_air_quality_grade_monotone_witness :
    severity (get_air_quality_grade (some 10) "PM10") ≤
      severity (get_air_quality_grade (some 100) "PM10") :=
  (get_air_quality_grade_monotone "PM10" 10 100 (by norm_num)).1

theorem Timestamp.leb_refl (a : Timestamp) : a.leb a := by
  simp [Timestamp.leb]

theorem Timestamp.leb_total (a b : Timestamp) : a.leb b ∨ b.leb a := by
  simp only [Timestamp.leb, Bool.or_eq_true, Bool.and_eq_true, decide_eq_true_eq,
    beq_iff_eq]
  omega

theorem Timestamp.leb_trans {a b c : Timestamp} (h1 : a.leb b) (h2 : b.leb c) :
    a.leb c := by
  simp only [Timestamp.leb, Bool.or_eq_true, Bool.and_eq_true, decide_eq_true_eq,
    beq_iff_eq] at *
  omega

theorem Timestamp.leb_antisymm {a b : Timestamp} (h1 : a.leb b) (h2 : b.leb a) :
    a = b := by
  cases a
  cases b
  simp only [Timestamp.leb, Bool.or_eq_true, Bool.and_eq_true, decide_eq_true_eq,
    beq_iff_eq, Timestamp.mk.injEq] at *
  omega

/-- Pairwise maximum of two timestamps. -/
def Timestamp.maxb (a b : Timestamp) : Timestamp :=
  if a.leb b then b else a

/-- `Series.max()` over a timestamp column: `none` on an empty column (NaT). -/
def maxTs : List Timestamp → Option Timestamp
  | [] => none
  | t :: ts =>
    match maxTs ts with
    | none => some t
    | some m => some (t.maxb m)

theorem Timestamp.leb_maxb_left (a b : Timestamp) : a.leb (a.maxb b) := by
  unfold Timestamp.maxb
  split
  · assumption
  · exact Timestamp.leb_refl a

theorem Timestamp.leb_maxb_right (a b : Timestamp) : b.leb (a.maxb b) := by
  unfold Timestamp.maxb
  split
  · exact Timestamp.leb_refl b
  · rename_i hn
    exact (Timestamp.leb_total a b).resolve_left (by simpa using hn)

theorem Timestamp.maxb_choice (a b : Timestamp) : a.maxb b = a ∨ a.maxb b = b := by
  unfold Timestamp.maxb
  split
  · exact Or.inr rfl
  · exact Or.inl rfl

theorem maxTs_eq_none {l : List Timestamp} : maxTs l = none ↔ l = [] := by
  cases l with
  | nil => simp [maxTs]
  | cons t ts =>
    simp only [maxTs]
    cases maxTs ts <;> simp

theorem maxTs_mem : ∀ {l : List Timestamp} {m : Timestamp}, maxTs l = some m → m ∈ l := by
  intro l
  induction l with
  | nil => intro m h; simp [maxTs] at h
  | cons t ts ih =>
    intro m h
    simp only [maxTs] at h
    cases hts : maxTs ts with
    | none =>
      rw [hts] at h
      simp only [Option.some.injEq] at h
      simp [← h]
    | some m2 =>
      rw [hts] at h
      simp only [Option.some.injEq] at h
      rcases Timestamp.maxb_choice t m2 with hc | hc <;> rw [hc] at h
      · simp [← h]
      · exact List.mem_cons_of_mem _ (h ▸ ih hts)

theorem leb_maxTs : ∀ {l : List Timestamp} {m : Timestamp}, maxTs l = some m →
    ∀ x ∈ l, x.leb m := by
  intro l
  induction l with
  | nil => simp
  | cons t ts ih =>
    intro m h x hx
    simp only [maxTs] at h
    cases hts : maxTs ts with
    | none =>
      rw [hts] at h
      simp only [Option.some.injEq] at h
      have : ts = [] := maxTs_eq_none.mp hts
      subst this
      simp only [List.mem_singleton] at hx
      subst hx
      exact h ▸ Timestamp.leb_refl x
    | some m2 =>
      rw [hts] at h
      simp only [Option.some.injEq] at h
      subst h
      rcases List.mem_cons.mp hx with rfl | hmem
      · exact Timestamp.leb_maxb_left x m2
      · exact Timestamp.leb_trans (ih hts x hmem) (Timestamp.leb_maxb_right t m2)

/-- `latest_data` (app.py): rows whose `일시` equals the column maximum; on
an empty view the maximum is NaT and no row matches it. -/
def latest_data (view : List Row) : List Row :=
  match maxTs (view.map Row.timestamp) with
  | none => []
  | some t => view.filter (fun r => r.timestamp == t)

/-- C9: for a non-empty view, `latest_data` returns exactly the rows whose
timestamp equals the maximum timestamp present; for an empty view it
returns the empty result. -/
theorem latest_data_spec (view : List Row) :
    (view = [] → latest_data view = [])
    ∧ (view ≠ [] → ∃ t ∈ view.map Row.timestamp,
        ∀ u ∈ view.map Row.timestamp, u.leb t)
    ∧ ∀ t, t ∈ view.map Row.timestamp → (∀ u ∈ view.map Row.timestamp, u.leb t) →
        ∀ r, (r ∈ latest_data view ↔ r ∈ view ∧ r.timestamp = t) := by
  refine ⟨?_, ?_, ?_⟩
  · rintro rfl
    rfl
  · intro hne
    cases hmx : maxTs (view.map Row.timestamp) with
    | none =>
      have : view.map Row.timestamp = [] := maxTs_eq_none.mp hmx
      exact absurd (List.map_eq_nil_iff.mp this) hne
    | some m => exact ⟨m, maxTs_mem hmx, leb_maxTs hmx⟩
  · intro t ht hub r
    obtain ⟨m, hm⟩ : ∃ m, maxTs (view.map Row.timestamp) = some m := by
      cases hmx : maxTs (view.map Row.timestamp) with
      | none =>
        rw [maxTs_eq_none.mp hmx] at ht
        simp at ht
      | some m => exact ⟨m, rfl⟩
    have hmt : m = t :=
      Timestamp.leb_antisymm (hub m (maxTs_mem hm)) (leb_maxTs hm t ht)
    subst hmt
    simp [latest_data, hm, List.mem_filter]

/-- C9 witness: of two rows at 9h and 10h, `latest_data` contains the 10h
row. -/
theorem latest_data_spec_witness :
    (⟨⟨2022, 6, 1, 10⟩, "중구", some 30, none, 2022, 6, 1, 10⟩ : Row) ∈
      latest_data [⟨⟨2022, 6, 1, 9⟩, "강남구", some 20, none, 2022, 6, 1, 9⟩,
        ⟨⟨2022, 6, 1, 10⟩, "중구", some 30, none, 2022, 6, 1, 10⟩] :=
  ((latest_data_spec _).2.2 ⟨2022, 6, 1, 10⟩ (by decide) (by decide) _).mpr
    ⟨by decide, rfl⟩

theorem readAll_fst (files : List (String × Option (List RawRow))) :
    (readAll files).1 = files.filterMap Prod.snd := by
  induction files with
  | nil => rfl
  | cons f rest ih =>
    obtain ⟨file, res⟩ := f
    cases res <;> simp [readAll, ih, List.filterMap_cons]

theorem readAll_snd (files : List (String × Option (List RawRow))) :
    (readAll files).2 = (files.filter (fun s => s.2.isNone)).map Prod.fst := by
  induction files with
  | nil => rfl
  | cons f rest ih =>
    obtain ⟨file, res⟩ := f
    cases res <;> simp [readAll, ih, List.filter_cons]

theorem load_data_fst (files : List (String × Option (List RawRow))) :
    (load_data files).1 = normalizeRows (files.filterMap Prod.snd).flatten := by
  simp only [load_data]
  split
  · rename_i h
    have hnil : files.filterMap Prod.snd = [] := by
      rw [← readAll_fst]
      exact List.isEmpty_iff.mp h
    simp [hnil, normalizeRows]
  · simp [readAll_fst]

theorem load_data_snd (files : List (String × Option (List RawRow))) :
    (load_data files).2 = (files.filter (fun s => s.2.isNone)).map Prod.fst := by
  simp only [load_data]
  split <;> simp [readAll_snd]

theorem mem_normalizeRows {raws : List RawRow} {r : Row} :
    r ∈ normalizeRows raws ↔ ∃ raw ∈ raws, ∃ t, raw.date = some t ∧
      r = ⟨t, raw.district, raw.pm10, raw.pm25, t.year, t.month, t.day, t.hour⟩ := by
  simp only [normalizeRows, List.mem_filterMap]
  constructor
  · rintro ⟨raw, hmem, hg⟩
    cases hd : raw.date with
    | none =>
      rw [hd] at hg
      simp at hg
    | some t =>
      rw [hd] at hg
      simp only [Option.map_some', Option.some.injEq] at hg
      exact ⟨raw, hmem, t, hd, hg.symm⟩
  · rintro ⟨raw, hmem, t, hd, rfl⟩
    exact ⟨raw, hmem, by simp [hd]⟩

theorem length_normalizeRows (raws : List RawRow) :
    (normalizeRows raws).length
      = (raws.filter (fun raw => raw.date.isSome)).length := by
  induction raws with
  | nil => rfl
  | cons raw rest ih =>
    simp only [normalizeRows, List.filterMap_cons, List.filter_cons] at *
    cases hd : raw.date <;> simp [hd] <;> omega

/-- C4: every failed source is reported (in configuration order) while the
remaining sources are still loaded and concatenated in configuration order;
when every source fails the result is the empty table. -/
theorem load_data_error_policy (files : List (String × Option (List RawRow))) :
    (load_data files).2 = (files.filter (fun s => s.2.isNone)).map Prod.fst
    ∧ (load_data files).1 = normalizeRows (files.filterMap Prod.snd).flatten
    ∧ ((∀ s ∈ files, s.2 = none) → (load_data files).1 = []) := by
  refine ⟨load_data_snd files, load_data_fst files, fun hall => ?_⟩
  rw [load_data_fst]
  have hnil : files.filterMap Prod.snd = [] := by
    rw [List.filterMap_eq_nil_iff]
    exact hall
  simp [hnil, normalizeRows]

/-- C4 witness: with two sources that both fail, the table is empty and
both failures are reported in order. -/
theorem load_data_error_policy_witness :
    (load_data [("seoul_air_20082011.csv", none), ("seoul_air_20122015.csv", none)]).1 = []
    ∧ (load_data [("seoul_air_20082011.csv", none), ("seoul_air_20122015.csv", none)]).2
        = ["seoul_air_20082011.csv", "seoul_air_20122015.csv"] :=
  ⟨(load_data_error_policy _).2.2 (by simp), by decide⟩

/-- C7: every retained record's derived calendar fields equal the
components of its (valid) timestamp, every retained record stems from a raw
row whose date parsed, and exactly the raw rows with parseable dates are
retained. -/
theorem load_data_timestamps (files : List (String × Option (List RawRow))) :
    (∀ r ∈ (load_data files).1,
        r.year = r.timestamp.year ∧ r.month = r.timestamp.month
        ∧ r.day = r.timestamp.day ∧ r.hour = r.timestamp.hour
        ∧ ∃ raw ∈ (files.filterMap Prod.snd).flatten,
            raw.date = some r.timestamp ∧ raw.district = r.district)
    ∧ (load_data files).1.length
        = ((files.filterMap Prod.snd).flatten.filter
            (fun raw => raw.date.isSome)).length := by
  constructor
  · intro r hr
    rw [load_data_fst] at hr
    obtain ⟨raw, hmem, t, hd, rfl⟩ := mem_normalizeRows.mp hr
    exact ⟨rfl, rfl, rfl, rfl, raw, hmem, hd, rfl⟩
  · rw [load_data_fst, length_normalizeRows]

/-- C7 witness: loading one source holding a parseable row and an
unparseable row retains the parseable one with consistent derived fields. -/
theorem load_data_timestamps_witness :
    (⟨⟨2022, 6, 1, 10⟩, "강남구", some 25, none, 2022, 6, 1, 10⟩ : Row).year
        = Timestamp.year ⟨2022, 6, 1, 10⟩
    ∧ (⟨⟨2022, 6, 1, 10⟩, "강남구", some 25, none, 2022, 6, 1, 10⟩ : Row).month
        = Timestamp.month ⟨2022, 6, 1, 10⟩
    ∧ (⟨⟨2022, 6, 1, 10⟩, "강남구", some 25, none, 2022, 6, 1, 10⟩ : Row).day
        = Timestamp.day ⟨2022, 6, 1, 10⟩
    ∧ (⟨⟨2022, 6, 1, 10⟩, "강남구", some 25, none, 2022, 6, 1, 10⟩ : Row).hour
        = Timestamp.hour ⟨2022, 6, 1, 10⟩
    ∧ ∃ raw ∈ (([("seoul_air_2022.csv",
            some [⟨some ⟨2022, 6, 1, 10⟩, "강남구", some 25, none⟩,
                  ⟨none, "중구", some 99, none⟩])] :
          List (String × Option (List RawRow))).filterMap Prod.snd).flatten,
        raw.date = some (⟨⟨2022, 6, 1, 10⟩, "강남구", some 25, none,
            2022, 6, 1, 10⟩ : Row).timestamp
        ∧ raw.district = (⟨⟨2022, 6, 1, 10⟩, "강남구", some 25, none,
            2022, 6, 1, 10⟩ : Row).district :=
  (load_data_timestamps [("seoul_air_2022.csv",
      some [⟨some ⟨2022, 6, 1, 10⟩, "강남구", some 25, none⟩,
            ⟨none, "중구", some 99, none⟩])]).1 _ (by decide)

/-- Mean with pandas missing-value semantics: applied to the non-missing
values of a column, and the mean of no values is itself missing. -/
def mean? (xs : List ℚ) : Option ℚ :=
  if xs.isEmpty then none else some (xs.sum / xs.length)

/-- `groupby(구분)[pollutant]` with NaN exclusion: the non-missing values
of the selected pollutant among the rows of one district. -/
def districtVals (view : List Row) (p : Pollutant) (d : String) : List ℚ :=
  (view.filter (fun r => r.district == d)).filterMap (fun r => r.col p)

/-- `sort_values(ascending=False)` comparison on mean values: larger values
first, missing (NaN) values last. -/
def gebOpt : Option ℚ → Option ℚ → Bool
  | some x, some y => decide (y ≤ x)
  | _, none => true
  | none, some _ => false

/-- Descending-by-mean order on the grouped entries. -/
def descMean (a b : String × Option ℚ) : Prop :=
  gebOpt a.2 b.2 = true

instance : DecidableRel descMean := fun a b =>
  inferInstanceAs (Decidable (gebOpt a.2 b.2 = true))

instance : IsTotal (String × Option ℚ) descMean := by
  constructor
  intro a b
  obtain ⟨da, ma⟩ := a
  obtain ⟨db, mb⟩ := b
  unfold descMean
  cases ma <;> cases mb
  all_goals simp [gebOpt]
  exact le_total _ _

instance : IsTrans (String × Option ℚ) descMean := by
  constructor
  intro a b c hab hbc
  obtain ⟨da, ma⟩ := a
  obtain ⟨db, mb⟩ := b
  obtain ⟨dc, mc⟩ := c
  unfold descMean at *
  cases ma <;> cases mb <;> cases mc <;> simp_all [gebOpt] <;> linarith

/-- `district_avg` (app.py line 171): group the filtered view by district,
take the mean of the selected pollutant per group (missing values
excluded), and sort descending by mean. -/
def district_avg (view : List Row) (p : Pollutant) : List (String × Option ℚ) :=
  List.insertionSort descMean
    (((view.map Row.district).dedup).map
      (fun d => (d, mean? (districtVals view p d))))

theorem mem_district_avg {view : List Row} {p : Pollutant} {d : String}
    {m : Option ℚ} :
    (d, m) ∈ district_avg view p ↔
      d ∈ view.map Row.district ∧ m = mean? (districtVals view p d) := by
  unfold district_avg
  rw [List.mem_insertionSort]
  simp only [List.mem_map, List.mem_dedup]
  constructor
  · rintro ⟨d2, hd2, heq⟩
    simp only [Prod.mk.injEq] at heq
    obtain ⟨rfl, rfl⟩ := heq
    obtain ⟨r, hr, rfl⟩ := hd2
    exact ⟨⟨r, hr, rfl⟩, rfl⟩
  · rintro ⟨hd, rfl⟩
    obtain ⟨r, hr, rfl⟩ := hd
    exact ⟨r.district, ⟨r, hr, rfl⟩, rfl⟩

theorem sorted_district_avg (view : List Row) (p : Pollutant) :
    List.Sorted descMean (district_avg view p) :=
  List.sorted_insertionSort descMean _

/-- C5: the district-grouped mean has exactly one entry per district present
in the view, each entry is the mean of that district's non-missing
pollutant values (missing when all are missing, not zero), and the entries
are sorted by descending mean. -/
theorem district_avg_spec (view : List Row) (p : Pollutant) :
    (∀ d, (∃ m, (d, m) ∈ district_avg view p) ↔ ∃ r ∈ view, r.district = d)
    ∧ (∀ d m, (d, m) ∈ district_avg view p → m = mean? (districtVals view p d))
    ∧ List.Sorted descMean (district_avg view p)
    ∧ ((district_avg view p).map Prod.fst).Nodup := by
  have hperm : List.Perm (district_avg view p)
      (((view.map Row.district).dedup).map
        (fun d => (d, mean? (districtVals view p d)))) :=
    List.perm_insertionSort descMean _
  have hnodup : ((district_avg view p).map Prod.fst).Nodup := by
    have hkeys : (((view.map Row.district).dedup).map
        (fun d => (d, mean? (districtVals view p d)))).map Prod.fst
        = (view.map Row.district).dedup := by
      rw [List.map_map]
      exact List.map_id _
    refine ((hperm.map Prod.fst).nodup_iff).mpr ?_
    rw [hkeys]
    exact List.nodup_dedup _
  refine ⟨fun d => ?_, fun d m hm => (mem_district_avg.mp hm).2,
    sorted_district_avg view p, hnodup⟩
  constructor
  · rintro ⟨m, hm⟩
    obtain ⟨hd, -⟩ := mem_district_avg.mp hm
    simpa [List.mem_map] using hd
  · rintro ⟨r, hr, rfl⟩
    exact ⟨_, mem_district_avg.mpr ⟨List.mem_map_of_mem _ hr, rfl⟩⟩

/-- C5 witness: the missing-value scenario — district 중구 with pm10 values
{40, missing} gets mean 40 (missing excluded), not 20. -/
theorem district_avg_spec_witness :
    ("중구", some (40 : ℚ)) ∈ district_avg
        [⟨⟨2022, 6, 1, 10⟩, "중구", some 40, none, 2022, 6, 1, 10⟩,
         ⟨⟨2022, 6, 1, 11⟩, "중구", none, none, 2022, 6, 1, 11⟩] Pollutant.pm10
    ∧ some (40 : ℚ) = mean? (districtVals
        [⟨⟨2022, 6, 1, 10⟩, "중구", some 40, none, 2022, 6, 1, 10⟩,
         ⟨⟨2022, 6, 1, 11⟩, "중구", none, none, 2022, 6, 1, 11⟩]
        Pollutant.pm10 "중구") := by
  have hvals : districtVals
      [⟨⟨2022, 6, 1, 10⟩, "중구", some 40, none, 2022, 6, 1, 10⟩,
       ⟨⟨2022, 6, 1, 11⟩, "중구", none, none, 2022, 6, 1, 11⟩]
      Pollutant.pm10 "중구" = [40] := by decide
  have hmean : some (40 : ℚ) = mean? (districtVals
      [⟨⟨2022, 6, 1, 10⟩, "중구", some 40, none, 2022, 6, 1, 10⟩,
       ⟨⟨2022, 6, 1, 11⟩, "중구", none, none, 2022, 6, 1, 11⟩]
      Pollutant.pm10 "중구") := by
    rw [hvals]
    norm_num [mean?]
  have hmem : ("중구", some (40 : ℚ)) ∈ district_avg
      [⟨⟨2022, 6, 1, 10⟩, "중구", some 40, none, 2022, 6, 1, 10⟩,
       ⟨⟨2022, 6, 1, 11⟩, "중구", none, none, 2022, 6, 1, 11⟩] Pollutant.pm10 :=
    mem_district_avg.mpr ⟨by decide, hmean⟩
  exact ⟨hmem, (district_avg_spec _ _).2.1 "중구" _ hmem⟩

/-- `monthly_trend` (app.py): group the view by (month, district) and take
the mean of the selected pollutant per group. -/
def monthly_trend (view : List Row) (p : Pollutant) : List (ℕ × String × Option ℚ) :=
  ((view.map (fun r => (r.month, r.district))).dedup).map (fun k =>
    (k.1, k.2, mean? ((view.filter
      (fun r => r.month == k.1 && r.district == k.2)).filterMap (fun r => r.col p))))

/-- `hourly_pattern` (app.py): group the view by hour only (collapsing
districts) and take the mean of the selected pollutant. -/
def hourly_pattern (view : List Row) (p : Pollutant) : List (ℕ × Option ℚ) :=
  ((view.map Row.hour).dedup).map (fun h =>
    (h, mean? ((view.filter (fun r => r.hour == h)).filterMap (fun r => r.col p))))

/-- numpy rounding to an integer: round half to even. -/
def rhe {α : Type} [LinearOrderedField α] [FloorRing α] (x : α) : ℤ :=
  if Int.fract x < 1/2 then ⌊x⌋
  else if 1/2 < Int.fract x then ⌊x⌋ + 1
  else if ⌊x⌋ % 2 = 0 then ⌊x⌋ else ⌊x⌋ + 1

/-- `.round(1)` on a rational value: one decimal place, half to even. -/
def round1 (q : ℚ) : ℚ := (rhe (q * 10) : ℚ) / 10

/-- `.round(1)` on a real value (used for the std column). -/
noncomputable def roundR1 (x : ℝ) : ℝ := (rhe (x * 10) : ℝ) / 10

/-- Sample variance (`std` uses ddof = 1) of the non-missing values;
missing for fewer than two values, where the 0/0 divisor yields NaN. -/
def var1? : List ℚ → Option ℚ
  | [] => none
  | [_] => none
  | xs => some (((xs.map (fun x => (x - xs.sum / xs.length) ^ 2)).sum)
      / ((xs.length : ℚ) - 1))

/-- Sample standard deviation: square root of the sample variance. -/
noncomputable def std1? (xs : List ℚ) : Option ℝ :=
  (var1? xs).map (fun v => Real.sqrt (v : ℝ))

theorem std1?_eq_none {xs : List ℚ} (h : xs.length ≤ 1) : std1? xs = none := by
  match xs with
  | [] => rfl
  | [_] => rfl
  | a :: b :: t => simp at h

/-- One row of the summary table: mean/max/min/std of the pollutant for one
district, each rounded to one decimal place. -/
structure Stats where
  mean : Option ℚ
  max : Option ℚ
  min : Option ℚ
  std : Option ℝ

/-- `max` aggregate over the non-missing values (missing when there are
none). -/
def maxQ : List ℚ → Option ℚ
  | [] => none
  | x :: xs => some ((maxQ xs).elim x (fun m => max x m))

/-- `min` aggregate over the non-missing values (missing when there are
none). -/
def minQ : List ℚ → Option ℚ
  | [] => none
  | x :: xs => some ((minQ xs).elim x (fun m => min x m))

/-- The date-range restriction of tab 4 (`date_filtered` in app.py): rows
whose date component lies between the two chosen dates, inclusive. -/
def date_filtered (view : List Row) (lo hi : Date) : List Row :=
  view.filter (fun r => lo.leb r.timestamp.date && (r.timestamp.date).leb hi)

/-- `summary_stats` (app.py): group the date-restricted view by district
and aggregate mean/max/min/std of the selected pollutant, each rounded to
one decimal place. -/
noncomputable def summary_stats (view : List Row) (p : Pollutant) (lo hi : Date) :
    List (String × Stats) :=
  (((date_filtered view lo hi).map Row.district).dedup).map (fun d =>
    (d, { mean := (mean? (districtVals (date_filtered view lo hi) p d)).map round1,
          max := (maxQ (districtVals (date_filtered view lo hi) p d)).map round1,
          min := (minQ (districtVals (date_filtered view lo hi) p d)).map round1,
          std := (std1? (districtVals (date_filtered view lo hi) p d)).map roundR1 }))

theorem mem_summary_stats {view : List Row} {p : Pollutant} {lo hi : Date}
    {d : String} {s : Stats} :
    (d, s) ∈ summary_stats view p lo hi ↔
      d ∈ (date_filtered view lo hi).map Row.district
      ∧ s = { mean := (mean? (districtVals (date_filtered view lo hi) p d)).map round1,
              max := (maxQ (districtVals (date_filtered view lo hi) p d)).map round1,
              min := (minQ (districtVals (date_filtered view lo hi) p d)).map round1,
              std := (std1? (districtVals (date_filtered view lo hi) p d)).map roundR1 } := by
  unfold summary_stats
  simp only [List.mem_map, List.mem_dedup]
  constructor
  · rintro ⟨d2, hd2, heq⟩
    simp only [Prod.mk.injEq] at heq
    obtain ⟨rfl, rfl⟩ := heq
    exact ⟨hd2, rfl⟩
  · rintro ⟨hd, rfl⟩
    exact ⟨d, hd, rfl⟩

/-- C8: the summary statistics group the date-restricted rows by district
(one entry per district present in the sub-range), aggregate the mean, max,
min and sample standard deviation of the pollutant rounded to one decimal
place, and the standard deviation of a group with at most one value is
missing, not zero. -/
theorem summary_stats_spec (view : List Row) (p : Pollutant) (lo hi : Date) :
    (∀ d, (∃ s, (d, s) ∈ summary_stats view p lo hi)
        ↔ ∃ r ∈ date_filtered view lo hi, r.district = d)
    ∧ ∀ d s, (d, s) ∈ summary_stats view p lo hi →
        s.mean = (mean? (districtVals (date_filtered view lo hi) p d)).map round1
        ∧ s.max = (maxQ (districtVals (date_filtered view lo hi) p d)).map round1
        ∧ s.min = (minQ (districtVals (date_filtered view lo hi) p d)).map round1
        ∧ s.std = (std1? (districtVals (date_filtered view lo hi) p d)).map roundR1
        ∧ ((districtVals (date_filtered view lo hi) p d).length ≤ 1 →
            s.std = none) := by
  constructor
  · intro d
    constructor
    · rintro ⟨s, hs⟩
      have hd := (mem_summary_stats.mp hs).1
      simpa [List.mem_map] using hd
    · rintro ⟨r, hr, rfl⟩
      exact ⟨_, mem_summary_stats.mpr ⟨List.mem_map_of_mem _ hr, rfl⟩⟩
  · intro d s hs
    obtain ⟨-, rfl⟩ := mem_summary_stats.mp hs
    refine ⟨rfl, rfl, rfl, rfl, fun hlen => ?_⟩
    simp [std1?_eq_none hlen]

/-- C8 witness: for a view holding a single 중구 row in range, the group
has one value, so its standard deviation is missing (not zero). -/
theorem summary_stats_spec_witness :
    Stats.std
      { mean := (mean? (districtVals (date_filtered
            [⟨⟨2022, 6, 1, 10⟩, "중구", some 40, none, 2022, 6, 1, 10⟩]
            ⟨2022, 1, 1⟩ ⟨2022, 12, 31⟩) Pollutant.pm10 "중구")).map round1,
        max := (maxQ (districtVals (date_filtered
            [⟨⟨2022, 6, 1, 10⟩, "중구", some 40, none, 2022, 6, 1, 10⟩]
            ⟨2022, 1, 1⟩ ⟨2022, 12, 31⟩) Pollutant.pm10 "중구")).map round1,
        min := (minQ (districtVals (date_filtered
            [⟨⟨2022, 6, 1, 10⟩, "중구", some 40, none, 2022, 6, 1, 10⟩]
            ⟨2022, 1, 1⟩ ⟨2022, 12, 31⟩) Pollutant.pm10 "중구")).map round1,
        std := (std1? (districtVals (date_filtered
            [⟨⟨2022, 6, 1, 10⟩, "중구", some 40, none, 2022, 6, 1, 10⟩]
            ⟨2022, 1, 1⟩ ⟨2022, 12, 31⟩) Pollutant.pm10 "중구")).map roundR1 }
      = none :=
  ((summary_stats_spec
      [⟨⟨2022, 6, 1, 10⟩, "중구", some 40, none, 2022, 6, 1, 10⟩]
      Pollutant.pm10 ⟨2022, 1, 1⟩ ⟨2022, 12, 31⟩).2 "중구" _
    (mem_summary_stats.mpr ⟨by decide, rfl⟩)).2.2.2.2 (by decide)

/-- C3: every aggregation operation yields the empty result on the empty
view (no failure), and on a view whose selected pollutant values are all
missing the district means are all missing, not zero and not an error. -/
theorem aggregations_total (p : Pollutant) (lo hi : Date) :
    latest_data [] = []
    ∧ district_avg [] p = []
    ∧ monthly_trend [] p = []
    ∧ hourly_pattern [] p = []
    ∧ summary_stats [] p lo hi = []
    ∧ ∀ view, (∀ r ∈ view, r.col p = none) →
        ∀ d m, (d, m) ∈ district_avg view p → m = none := by
  refine ⟨rfl, rfl, rfl, rfl, rfl, fun view hmiss d m hm => ?_⟩
  have h2 := (mem_district_avg.mp hm).2
  have hvals : districtVals view p d = [] := by
    unfold districtVals
    rw [List.filterMap_eq_nil_iff]
    intro r hr
    exact hmiss r (List.mem_filter.mp hr).1
  rw [h2, hvals]
  rfl

/-- C3 witness: empty-view aggregates are empty, and a 중구 view whose pm10
values are all missing yields a missing mean. -/
theorem aggregations_total_witness :
    latest_data [] = []
    ∧ summary_stats [] Pollutant.pm10 ⟨2022, 1, 1⟩ ⟨2022, 12, 31⟩ = []
    ∧ (none : Option ℚ) = none := by
  have h := aggregations_total Pollutant.pm10 ⟨2022, 1, 1⟩ ⟨2022, 12, 31⟩
  refine ⟨h.1, h.2.2.2.2.1, ?_⟩
  exact h.2.2.2.2.2 [⟨⟨2022, 6, 1, 10⟩, "중구", none, none, 2022, 6, 1, 10⟩]
    (by decide) "중구" none (mem_district_avg.mpr ⟨by decide, by decide⟩)
